import Mathlib

/-!
Shallow embedding of the mask-classification repository
(`dataset.py` and `model.py`) and verification of its specification.

Modelling conventions:
* Python lists become Lean `List`s; mutation becomes explicit state passing.
* Python exceptions become `Except` results; an exception that escapes a
  loop carries the partially mutated state, as Python mutation survives a
  raised exception.
* The class-level accumulators `image_paths`, `labels` (on the base class)
  and `gender_labels` (on the multi-label subclass) live in one shared
  record `DState`, mirroring the fact that they are class attributes shared
  by every instance in the same process; the base-class code never touches
  `gender_labels`.
* Image pixels are exact rationals (the source works on 8-bit integer
  pixels cast to int32, so no precision is lost); a pixel is an RGB triple
  `V3` and an image is its flattened pixel list.
* The source stores `std`; the embedding tracks its square `stdSq`, because
  the source's `** 0.5` has no rational counterpart.  The encoding is
  faithful: every standard deviation the source stores is nonnegative, so
  squaring is injective on the stored values.
* `np.random` / `torch.randn` randomness becomes an explicit stream of
  draws: each randomized transform step consumes the head of the stream.
-/

set_option linter.unusedVariables false

namespace MaskRepo

/-- Decidable equality of `Except` results, for evaluating the embedding
on concrete inputs. -/
instance {ε : Type u} {α : Type v} [DecidableEq ε] [DecidableEq α] :
    DecidableEq (Except ε α) := fun a b =>
  match a, b with
  | .error x, .error y => decidable_of_iff (x = y) (by simp)
  | .error _, .ok _ => isFalse (by simp)
  | .ok _, .error _ => isFalse (by simp)
  | .ok x, .ok y => decidable_of_iff (x = y) (by simp)

/-! ## Basic helpers from `dataset.py` -/

/-- `IMG_EXTENSIONS` from the source. -/
def IMG_EXTENSIONS : List String :=
  [".jpg", ".JPG", ".jpeg", ".JPEG", ".png",
   ".PNG", ".ppm", ".PPM", ".bmp", ".BMP"]

/-- `is_image_file(filename)`: any extension is a suffix of the filename. -/
def is_image_file (filename : String) : Bool :=
  IMG_EXTENSIONS.any (fun ext => ext.data.isSuffixOf filename.data)

/-- Python's `str.split(sep)` on a single-character separator, over the
character list.  `[] ↦ [[]]`, and each separator occurrence starts a new
field, so `split` of a string with `k` separators has `k+1` fields. -/
def pySplitChars (sep : Char) : List Char → List (List Char)
  | [] => [[]]
  | c :: cs =>
    match pySplitChars sep cs with
    | [] => if c = sep then [[], []] else [[c]]
    | f :: rest => if c = sep then [] :: f :: rest else (c :: f) :: rest

/-- `profile.split("_")` from the source. -/
def pySplitUnderscore (s : String) : List String :=
  (pySplitChars '_' s.data).map (fun cs => String.mk cs)

/-- `os.path.join(a, b, c)` for the relative components the source joins. -/
def pathJoin (a b c : String) : String :=
  a ++ "/" ++ b ++ "/" ++ c

/-! ## Labels and the canonical file table -/

/-- `Labels.mask` from the source. -/
def Labels.mask : Nat := 0

/-- `Labels.incorrect` from the source. -/
def Labels.incorrect : Nat := 1

/-- `Labels.normal` from the source. -/
def Labels.normal : Nat := 2

/-- `_file_names`: the 7 canonical filenames with their labels, in the
source's (insertion-ordered dict) iteration order. -/
def fileNames : List (String × Nat) :=
  [("mask1.jpg", Labels.mask),
   ("mask2.jpg", Labels.mask),
   ("mask3.jpg", Labels.mask),
   ("mask4.jpg", Labels.mask),
   ("mask5.jpg", Labels.mask),
   ("incorrect_mask.jpg", Labels.incorrect),
   ("normal.jpg", Labels.normal)]

/-- `GenderLabels.male` from the source. -/
def GenderLabels.male : Nat := 0

/-- `GenderLabels.female` from the source. -/
def GenderLabels.female : Nat := 1

/-- `getattr(self.GenderLabels, gender)` over the class's declared
attributes: `some` value for `male`/`female`, `none` (AttributeError)
otherwise. -/
def getattrGenderLabels (gender : String) : Option Nat :=
  if gender = "male" then some GenderLabels.male
  else if gender = "female" then some GenderLabels.female
  else none

/-! ## Process state and environment -/

/-- The class-level accumulator lists (`image_paths`, `labels` on
`MaskBaseDataset`; `gender_labels` on `MaskMultiLabelDataset`).  They are
class attributes, hence one shared record per process, threaded through
every instance construction. -/
structure DState where
  image_paths : List String
  labels : List Nat
  gender_labels : List Nat
  deriving DecidableEq, Repr

/-- The empty accumulator state of a fresh process. -/
def DState.empty : DState := ⟨[], [], []⟩

/-- Python exceptions that the dataset code can raise. -/
inductive PyError where
  | valueError
  | attributeError
  | parseError
  | assertionError
  deriving DecidableEq, Repr

/-- A pixel: one RGB triple. -/
abbrev V3 := ℚ × ℚ × ℚ

/-- The external world a dataset construction reads: the image root,
the result of `pd.read_csv(meta_path).path.tolist()` (`.error` when the
metadata table cannot be parsed), the set of paths that exist on disk, and
the pixel contents of each image file. -/
structure Env where
  imgRoot : String
  metaProfiles : Except Unit (List String)
  diskPaths : List String
  imageOf : String → List V3

/-- `os.path.exists` against the environment's disk. -/
def os_path_exists (env : Env) (p : String) : Bool :=
  env.diskPaths.contains p

/-! ## `MaskBaseDataset.setup` -/

/-- One iteration of the base `setup` inner loop: append `(path, label)`
when the path exists and has an image extension. -/
def baseStep (env : Env) (profile fn : String) (label : Nat) (st : DState) : DState :=
  let img_path := pathJoin env.imgRoot profile fn
  if os_path_exists env img_path && is_image_file img_path then
    { st with image_paths := st.image_paths ++ [img_path],
              labels := st.labels ++ [label] }
  else st

/-- The base `setup` inner loop over `_file_names`. -/
def baseFiles (env : Env) (profile : String) : List (String × Nat) → DState → DState
  | [], st => st
  | (fn, label) :: rest, st => baseFiles env profile rest (baseStep env profile fn label st)

/-- The base `setup` outer loop over profiles. -/
def baseProfiles (env : Env) : List String → DState → DState
  | [], st => st
  | p :: ps, st => baseProfiles env ps (baseFiles env p fileNames st)

/-- `MaskBaseDataset.setup`: read the metadata table (propagating a parse
error), then scan every profile. -/
def setupBase (env : Env) (st : DState) : Except PyError DState :=
  match env.metaProfiles with
  | .error _ => .error .parseError
  | .ok profiles => .ok (baseProfiles env profiles st)

/-! ## `MaskMultiLabelDataset.setup` -/

/-- One iteration of the multi-label `setup` inner loop, in source order:
append path and label, then split the profile name (ValueError unless
exactly 4 fields), then look the gender up (AttributeError on a miss), then
append the gender label.  An error carries the partially mutated state. -/
def multiStep (env : Env) (profile fn : String) (label : Nat) (st : DState) :
    Except (PyError × DState) DState :=
  let img_path := pathJoin env.imgRoot profile fn
  if os_path_exists env img_path && is_image_file img_path then
    let st1 := { st with image_paths := st.image_paths ++ [img_path],
                         labels := st.labels ++ [label] }
    match pySplitUnderscore profile with
    | [_id, gender, _race, _age] =>
      match getattrGenderLabels gender with
      | some g => .ok { st1 with gender_labels := st1.gender_labels ++ [g] }
      | none => .error (.attributeError, st1)
    | _ => .error (.valueError, st1)
  else .ok st

/-- The multi-label `setup` inner loop over `_file_names`. -/
def multiFiles (env : Env) (profile : String) :
    List (String × Nat) → DState → Except (PyError × DState) DState
  | [], st => .ok st
  | (fn, label) :: rest, st =>
    match multiStep env profile fn label st with
    | .ok st1 => multiFiles env profile rest st1
    | .error e => .error e

/-- The multi-label `setup` outer loop over profiles. -/
def multiProfiles (env : Env) : List String → DState → Except (PyError × DState) DState
  | [], st => .ok st
  | p :: ps, st =>
    match multiFiles env p fileNames st with
    | .ok st1 => multiProfiles env ps st1
    | .error e => .error e

/-- `MaskMultiLabelDataset.setup`. -/
def multiSetup (env : Env) (st : DState) : Except (PyError × DState) DState :=
  match env.metaProfiles with
  | .error _ => .error (.parseError, st)
  | .ok profiles => multiProfiles env profiles st

/-- `__len__`: the length of the (shared) `image_paths` list. -/
def datasetLen (st : DState) : Nat := st.image_paths.length

/-! ## `calc_statistics` and `__init__` -/

/-- Componentwise addition on pixels. -/
def vadd (x y : V3) : V3 := (x.1 + y.1, x.2.1 + y.2.1, x.2.2 + y.2.2)

/-- Componentwise product on pixels. -/
def vmul (x y : V3) : V3 := (x.1 * y.1, x.2.1 * y.2.1, x.2.2 * y.2.2)

/-- Componentwise difference. -/
def vsub (x y : V3) : V3 := (x.1 - y.1, x.2.1 - y.2.1, x.2.2 - y.2.2)

/-- Scaling by a rational. -/
def vscale (c : ℚ) (x : V3) : V3 := (c * x.1, c * x.2.1, c * x.2.2)

/-- Sum of a list of per-channel triples. -/
def vsum (vs : List V3) : V3 := vs.foldl vadd (0, 0, 0)

/-- `np.mean(vs, axis=0)`: the per-channel mean of a list of triples. -/
def vlistMean (vs : List V3) : V3 := vscale (1 / (vs.length : ℚ)) (vsum vs)

/-- `image.mean(axis=(0, 1))`: the per-channel mean over an image's pixels. -/
def imgChanMean (img : List V3) : V3 := vlistMean img

/-- `(image ** 2).mean(axis=(0, 1))`: the per-channel mean of the squared
pixel values. -/
def imgChanSqMean (img : List V3) : V3 := vlistMean (img.map (fun v => vmul v v))

/-- `self.mean = np.mean(sums, axis=0) / 255` of `calc_statistics`, as a
function of the sampled images. -/
def codeMean (imgs : List (List V3)) : V3 :=
  vscale (1 / 255) (vlistMean (imgs.map imgChanMean))

/-- The square of
`self.std = (np.mean(squared, axis=0) - self.mean ** 2) ** 0.5 / 255`:
the code takes the square root of `np.mean(squared) - mean ** 2` and then
divides by 255, so the square of the stored value is that difference
divided by 255². -/
def codeStdSq (imgs : List (List V3)) : V3 :=
  vscale (1 / (255 * 255))
    (vsub (vlistMean (imgs.map imgChanSqMean)) (vmul (codeMean imgs) (codeMean imgs)))

/-- Modelled from the spec's words (for comparison with `codeStdSq`): the
square of `std = sqrt(E[X^2] - E[X]^2)` "over pixel intensities scaled to
[0,1]", with the same mean-of-per-image-means expectation the code uses:
scale every pixel by 1/255, then take E[X²] − E[X]². -/
def specStdSq (imgs : List (List V3)) : V3 :=
  let scaled := imgs.map (fun img => img.map (fun v => vscale (1 / 255) v))
  vsub (vlistMean (scaled.map imgChanSqMean))
    (vmul (vlistMean (scaled.map imgChanMean)) (vlistMean (scaled.map imgChanMean)))

/-- The hard-coded `self.mean = [0.5366, 0.5323, 0.5183]` of `__init__`. -/
def hardMean : V3 := (5366 / 10000, 5323 / 10000, 5183 / 10000)

/-- The square of the hard-coded `self.std = [0.2456, 0.2517, 0.2605]`. -/
def hardStdSq : V3 :=
  ((2456 / 10000) ^ 2, (2517 / 10000) ^ 2, (2605 / 10000) ^ 2)

/-- Per-instance attributes of a dataset object.  `statsComputed` is
instrumentation recording whether the statistics-computing branch of
`calc_statistics` executed. -/
structure Instance where
  phase : String
  mean : Option V3
  stdSq : Option V3
  statsComputed : Bool
  deriving DecidableEq, Repr

/-- `calc_statistics`: when mean or std is absent, compute both from the
first (up to) 3000 image paths; otherwise leave the instance unchanged. -/
def calc_statistics (env : Env) (st : DState) (inst : Instance) : Instance :=
  let has_statistics := inst.mean.isSome && inst.stdSq.isSome
  if has_statistics then inst
  else
    let imgs := (st.image_paths.take 3000).map env.imageOf
    { inst with mean := some (codeMean imgs),
                stdSq := some (codeStdSq imgs),
                statsComputed := true }

/-- `MaskBaseDataset.__init__(img_root, meta_path, phase, mean, std)`:
the `meanArg`/`stdArg` parameters are bound but, as in the source, never
read — the body assigns the hard-coded statistics, runs `setup()`, then
`calc_statistics()`. -/
def initBase (env : Env) (phase : String) (meanArg stdSqArg : Option V3) (st : DState) :
    Except PyError (Instance × DState) :=
  let inst : Instance :=
    { phase := phase, mean := some hardMean, stdSq := some hardStdSq,
      statsComputed := false }
  match setupBase env st with
  | .error e => .error e
  | .ok st1 => .ok (calc_statistics env st1 inst, st1)

/-- `MaskMultiLabelDataset.__init__`: the inherited `__init__` running the
overridden `setup`. -/
def initMulti (env : Env) (phase : String) (meanArg stdSqArg : Option V3) (st : DState) :
    Except (PyError × DState) (Instance × DState) :=
  let inst : Instance :=
    { phase := phase, mean := some hardMean, stdSq := some hardStdSq,
      statsComputed := false }
  match multiSetup env st with
  | .error e => .error e
  | .ok st1 => .ok (calc_statistics env st1 inst, st1)

/-! ## Transform pipelines -/

/-- `set_phase`: assert membership in `["train", "test"]`, then store. -/
def set_phase (inst : Instance) (phase : String) : Except PyError Instance :=
  if phase ∈ (["train", "test"] : List String) then .ok { inst with phase := phase }
  else .error .assertionError

/-- The transform steps composed by `train_transform` / `test_transform`. -/
inductive TStep where
  | resize
  | randomRotation
  | gaussianBlur
  | colorJitter
  | toTensor
  | normalize
  | addGaussianNoise
  deriving DecidableEq, Repr

/-- `train_transform`: the ordered composition from the source. -/
def train_transform : List TStep :=
  [.resize, .randomRotation, .gaussianBlur, .colorJitter,
   .toTensor, .normalize, .addGaussianNoise]

/-- `test_transform`: the ordered composition from the source. -/
def test_transform : List TStep := [.resize, .toTensor, .normalize]

/-- `AddGaussianNoise.__call__`: `tensor + randn(tensor.size()) * std + mean`,
with the drawn noise tensor made explicit. -/
def AddGaussianNoise (mean std : ℚ) (noise tensor : List ℚ) : List ℚ :=
  List.zipWith (fun x n => x + n * std + mean) tensor noise

/-- The external torchvision operations a pipeline applies.  The
deterministic ones (`Resize`, `ToTensor`, `Normalize`) are arbitrary
functions of the image; the randomized ones additionally consume the draw
popped from the random stream.  `AddGaussianNoise` is the repository's own
class and is embedded concretely. -/
structure TEnv where
  resize : List ℚ → List ℚ
  randomRotation : List ℚ → List ℚ → List ℚ
  gaussianBlur : List ℚ → List ℚ → List ℚ
  colorJitter : List ℚ → List ℚ → List ℚ
  toTensor : List ℚ → List ℚ
  normalize : List ℚ → List ℚ

/-- Apply one step to an image paired with the remaining random stream. -/
def applyStep (tenv : TEnv) : TStep → List ℚ × List (List ℚ) → List ℚ × List (List ℚ)
  | .resize, (t, rng) => (tenv.resize t, rng)
  | .randomRotation, (t, rng) => (tenv.randomRotation (rng.headD []) t, rng.tail)
  | .gaussianBlur, (t, rng) => (tenv.gaussianBlur (rng.headD []) t, rng.tail)
  | .colorJitter, (t, rng) => (tenv.colorJitter (rng.headD []) t, rng.tail)
  | .toTensor, (t, rng) => (tenv.toTensor t, rng)
  | .normalize, (t, rng) => (tenv.normalize t, rng)
  | .addGaussianNoise, (t, rng) => (AddGaussianNoise 0 1 (rng.headD []) t, rng.tail)

/-- `transforms.Compose`: apply the steps left to right. -/
def applyPipeline (tenv : TEnv) (steps : List TStep) (t : List ℚ) (rng : List (List ℚ)) :
    List ℚ :=
  (steps.foldl (fun a s => applyStep tenv s a) (t, rng)).1

/-- `MaskBaseDataset.transform(image)`: select the pipeline by the current
phase (AttributeError on any other phase) and apply it. -/
def transform (tenv : TEnv) (inst : Instance) (image : List ℚ) (rng : List (List ℚ)) :
    Except PyError (List ℚ) :=
  if inst.phase = "train" then .ok (applyPipeline tenv train_transform image rng)
  else if inst.phase = "test" then .ok (applyPipeline tenv test_transform image rng)
  else .error .attributeError

/-! ## `model.py` -/

/-- One learnable parameter tensor, abstracted to its gradient-tracking
flag (`_initialize_weights` mutates only `.data` values, which the flag
does not depend on). -/
structure Param where
  requiresGrad : Bool
  deriving DecidableEq, Repr

/-- A model, abstracted to the parameter lists reported by
`backbone_layers().parameters()` and `classifier_layers().parameters()`. -/
structure Model where
  backboneParams : List Param
  classifierParams : List Param
  deriving DecidableEq, Repr

/-- `build_layers`: freshly constructed torch parameters default to
`requires_grad=True`. -/
def build_layers (nBackbone nClassifier : Nat) : Model :=
  ⟨List.replicate nBackbone ⟨true⟩, List.replicate nClassifier ⟨true⟩⟩

/-- `_initialize_weights`: overwrites `.data` of conv / batch-norm /
linear submodules; it never touches `requires_grad`, so on the
gradient-flag abstraction it is the identity. -/
def initWeights (m : Model) : Model := m

/-- `_freeze_net`: set `requires_grad = False` on every backbone
parameter. -/
def freeze_net (m : Model) : Model :=
  { m with backboneParams := m.backboneParams.map (fun _ => ⟨false⟩) }

/-- `MaskBaseModel.__init__(num_classes, pretrained, freeze)`:
`build_layers`, then `_initialize_weights` unless pretrained, then
`_freeze_net` when the freeze flag is set. -/
def MaskBaseModel_init (nBackbone nClassifier : Nat) (pretrained freeze : Bool) : Model :=
  let m := build_layers nBackbone nClassifier
  let m := if !pretrained then initWeights m else m
  if freeze then freeze_net m else m

/-! ## Derived predicates used to state the claims -/

/-- The `setup` filter for one canonical file of a profile:
`os.path.exists(img_path) and is_image_file(img_path)`. -/
def acceptsFile (env : Env) (profile fn : String) : Bool :=
  let img_path := pathJoin env.imgRoot profile fn
  os_path_exists env img_path && is_image_file img_path

/-- Whether a profile name splits into exactly 4 underscore-separated
fields (so that the 4-variable unpacking succeeds). -/
def splits4 (profile : String) : Bool :=
  (pySplitUnderscore profile).length == 4

/-- Whether the gender lookup would succeed for a profile: vacuously true
when the 4-field split fails (the lookup is then never reached). -/
def wellGendered (profile : String) : Bool :=
  match pySplitUnderscore profile with
  | [_i, gender, _r, _a] => (getattrGenderLabels gender).isSome
  | _ => true

/-- Whether at least one canonical file of the profile passes the
existence-and-extension filter. -/
def hasAcceptedFile (env : Env) (profile : String) : Bool :=
  fileNames.any (fun pr => acceptsFile env profile pr.1)

/-- Provenance of one base-dataset entry: `labels[i]` describes
`image_paths[i]` when the path is a canonical file of some profile and the
label is that file's label in `_file_names`. -/
def DescribesBase (env : Env) (p : String) (label : Nat) : Prop :=
  ∃ profile fn, p = pathJoin env.imgRoot profile fn ∧ (fn, label) ∈ fileNames

/-- Provenance of one multi-label entry: additionally, `gender_labels[i]`
is the looked-up gender field of the same profile. -/
def DescribesMulti (env : Env) (p : String) (label g : Nat) : Prop :=
  ∃ profile fn, p = pathJoin env.imgRoot profile fn ∧ (fn, label) ∈ fileNames ∧
    ∃ i gname r a, pySplitUnderscore profile = [i, gname, r, a] ∧
      getattrGenderLabels gname = some g

/-- Concatenation of accumulator states: the result of running a scan from
`st` is the scan's own appends after `st`'s contents. -/
def appendD (st d : DState) : DState :=
  ⟨st.image_paths ++ d.image_paths, st.labels ++ d.labels,
   st.gender_labels ++ d.gender_labels⟩

/-! ## Concrete environments and states used by the witnesses -/

/-- The instance attributes every construction ends with (hard-coded
statistics, no computation). -/
def instHard (ph : String) : Instance :=
  { phase := ph, mean := some hardMean, stdSq := some hardStdSq, statsComputed := false }

/-- A minimal environment: parsable empty metadata, empty disk. -/
def envC1 : Env :=
  { imgRoot := "r", metaProfiles := .ok [], diskPaths := [], imageOf := fun _ => [] }

/-- One well-formed profile with two of its canonical files on disk. -/
def envC2 : Env :=
  { imgRoot := "r", metaProfiles := .ok ["a_male_b_1"],
    diskPaths := ["r/a_male_b_1/mask1.jpg", "r/a_male_b_1/normal.jpg"],
    imageOf := fun _ => [] }

/-- The accumulator state after the base `setup` on `envC2`. -/
def stC2base : DState :=
  ⟨["r/a_male_b_1/mask1.jpg", "r/a_male_b_1/normal.jpg"], [0, 2], []⟩

/-- The accumulator state after the multi-label `setup` on `envC2`. -/
def stC2multi : DState :=
  ⟨["r/a_male_b_1/mask1.jpg", "r/a_male_b_1/normal.jpg"], [0, 2], [0, 0]⟩

/-- First instance's world for C4. -/
def envC4a : Env :=
  { imgRoot := "r", metaProfiles := .ok ["p_male_x_1"],
    diskPaths := ["r/p_male_x_1/normal.jpg"], imageOf := fun _ => [] }

/-- Second instance's world for C4. -/
def envC4b : Env :=
  { imgRoot := "r", metaProfiles := .ok ["q_female_y_2"],
    diskPaths := ["r/q_female_y_2/mask2.jpg"], imageOf := fun _ => [] }

/-- State after the first C4 construction. -/
def stC4a : DState := ⟨["r/p_male_x_1/normal.jpg"], [2], []⟩

/-- State after the second C4 construction on top of the first. -/
def stC4b : DState :=
  ⟨["r/p_male_x_1/normal.jpg", "r/q_female_y_2/mask2.jpg"], [2, 0], []⟩

/-- Multi-label states for the C4 witness. -/
def stC4am : DState := ⟨["r/p_male_x_1/normal.jpg"], [2], [0]⟩

/-- Multi-label state after the second C4 construction. -/
def stC4bm : DState :=
  ⟨["r/p_male_x_1/normal.jpg", "r/q_female_y_2/mask2.jpg"], [2, 0], [0, 1]⟩

/-- A malformed profile name with no files on disk (C7 counterexample). -/
def envC7 : Env :=
  { imgRoot := "r", metaProfiles := .ok ["bad"], diskPaths := [], imageOf := fun _ => [] }

/-- A malformed profile name with one canonical file on disk. -/
def envC7w : Env :=
  { imgRoot := "r", metaProfiles := .ok ["bad"],
    diskPaths := ["r/bad/mask1.jpg"], imageOf := fun _ => [] }

/-- A 4-field profile with an unrecognized gender and no files on disk
(C10 counterexample). -/
def envC10 : Env :=
  { imgRoot := "r", metaProfiles := .ok ["i_dog_x_1"], diskPaths := [],
    imageOf := fun _ => [] }

/-- A 4-field profile with an unrecognized gender and one canonical file
on disk. -/
def envC10w : Env :=
  { imgRoot := "r", metaProfiles := .ok ["i_dog_x_1"],
    diskPaths := ["r/i_dog_x_1/mask1.jpg"], imageOf := fun _ => [] }

/-! ## Claim C1 -/

/-- C1: the claim says statistics are computed from the images when no
mean/std is supplied and that supplied statistics are used unchanged.  The
code does neither: `__init__` assigns the hard-coded mean/std before
`calc_statistics` runs, so the computing branch is dead and the
constructor's `mean`/`std` arguments are discarded.  Constructed without
supplied statistics, the instance ends with the hard-coded values and
`statsComputed = false`; constructed with supplied statistics `(0,0,0)` /
`(1,1,1)`, the instance still ends with the hard-coded mean. -/
theorem c1_stats_hardcoded :
    (∃ inst st, initBase envC1 "train" none none DState.empty = .ok (inst, st) ∧
      inst.mean = some hardMean ∧ inst.stdSq = some hardStdSq ∧
      inst.statsComputed = false) ∧
    (∃ inst st,
      initBase envC1 "train" (some (0, 0, 0)) (some (1, 1, 1)) DState.empty = .ok (inst, st) ∧
      inst.mean = some hardMean ∧ inst.mean ≠ some ((0 : ℚ), (0 : ℚ), (0 : ℚ))) := by
  refine ⟨⟨⟨"train", some hardMean, some hardStdSq, false⟩, DState.empty, rfl, rfl, rfl, rfl⟩,
    ⟨⟨"train", some hardMean, some hardStdSq, false⟩, DState.empty, rfl, rfl, ?_⟩⟩
  simp only [ne_eq, Option.some.injEq, hardMean, Prod.mk.injEq]
  norm_num

/-! ## Claim C3 -/

/-- C3: the claim says the computed per-channel std satisfies
`std = sqrt(E[X²] − E[X]²)` over intensities scaled to `[0,1]`.  On a
single one-pixel image with all channels at 255 the scaled intensities are
constant, so the standard relation gives 0, but the code's value (stated
here at the level of its square) is `65024/65025` per channel, because the
code subtracts the square of the *scaled* mean from the *unscaled* mean of
squares before dividing by 255. -/
theorem c3_std_not_standard_relation :
    codeStdSq [[(255, 255, 255)]] ≠ specStdSq [[(255, 255, 255)]] ∧
    specStdSq [[(255, 255, 255)]] = (0, 0, 0) ∧
    codeStdSq [[(255, 255, 255)]] = (65024 / 65025, 65024 / 65025, 65024 / 65025) := by
  refine ⟨?_, ?_, ?_⟩ <;>
    norm_num [codeStdSq, specStdSq, codeMean, vlistMean, vsum, vadd, vmul, vsub,
      vscale, imgChanMean, imgChanSqMean]

/-! ## Claim C5 -/

/-- C5: `set_phase` fails with the assertion error for every phase outside
`{train, test}` and succeeds on those two, storing the phase; after a
successful `set_phase`, `transform` applies the train pipeline for
`train` and the test pipeline for `test`; `transform` fails with
`AttributeError` whenever the current phase is any other value. -/
theorem c5_phase_gating :
    (∀ inst phase, phase ∉ (["train", "test"] : List String) →
      set_phase inst phase = .error .assertionError) ∧
    (∀ inst phase inst', set_phase inst phase = .ok inst' →
      (phase = "train" ∨ phase = "test") ∧ inst'.phase = phase ∧
      ∀ tenv image rng,
        transform tenv inst' image rng =
          .ok (applyPipeline tenv
            (if phase = "train" then train_transform else test_transform) image rng)) ∧
    (∀ tenv inst image rng, inst.phase ∉ (["train", "test"] : List String) →
      transform tenv inst image rng = .error .attributeError) := by
  refine ⟨?_, ?_, ?_⟩
  · intro inst phase h
    simp [set_phase, h]
  · intro inst phase inst' h
    rw [set_phase] at h
    split at h
    · rename_i hmem
      cases h
      simp only [List.mem_cons, List.mem_singleton, List.not_mem_nil, or_false] at hmem
      refine ⟨hmem, rfl, ?_⟩
      intro tenv image rng
      rcases hmem with h1 | h1 <;> simp [transform, h1]
    · cases h
  · intro tenv inst image rng h
    simp only [List.mem_cons, List.mem_singleton, List.not_mem_nil, or_false, not_or] at h
    simp [transform, h.1, h.2]

/-- Witness for C5 at concrete inputs: phase `"valid"` is rejected, and
`set_phase` to `"train"` succeeds with `transform` then using the train
pipeline. -/
theorem c5_phase_gating_witness :
    set_phase ⟨"test", none, none, false⟩ "valid" = .error .assertionError ∧
    ((("train" : String) = "train" ∨ ("train" : String) = "test") ∧
      (Instance.mk "train" none none false).phase = "train" ∧
      ∀ tenv image rng,
        transform tenv ⟨"train", none, none, false⟩ image rng =
          .ok (applyPipeline tenv
            (if ("train" : String) = "train" then train_transform else test_transform)
            image rng)) := by
  constructor
  · exact c5_phase_gating.1 ⟨"test", none, none, false⟩ "valid" (by decide)
  · exact c5_phase_gating.2.1 ⟨"test", none, none, false⟩ "train"
      ⟨"train", none, none, false⟩ (by decide)

/-! ## Claim C6 -/

/-- C6: after construction with `freeze=True`, every backbone parameter
has `requires_grad = False` and every classifier parameter still has
`requires_grad = True`, for any layer sizes and either `pretrained`
setting. -/
theorem c6_freeze_flags (nBackbone nClassifier : Nat) (pretrained : Bool) :
    ((MaskBaseModel_init nBackbone nClassifier pretrained true).backboneParams.all
      fun p => !p.requiresGrad) = true ∧
    ((MaskBaseModel_init nBackbone nClassifier pretrained true).classifierParams.all
      fun p => p.requiresGrad) = true := by
  cases pretrained <;>
    refine ⟨?_, ?_⟩ <;>
    simp [MaskBaseModel_init, build_layers, initWeights, freeze_net,
      List.all_map, List.all_replicate, Function.comp]

/-! ## Claim C8 -/

/-- C8: the test pipeline consumes no randomness, so its output is
identical across calls on the same image whatever the random streams; the
train pipeline contains randomized steps (in particular the repository's
`AddGaussianNoise`), and there are random streams under which two calls on
the same image produce different outputs. -/
theorem c8_test_deterministic_train_random :
    (∀ (tenv : TEnv) (image : List ℚ) (rng₁ rng₂ : List (List ℚ)),
      applyPipeline tenv test_transform image rng₁ =
        applyPipeline tenv test_transform image rng₂) ∧
    (∃ (tenv : TEnv) (image : List ℚ) (rng₁ rng₂ : List (List ℚ)),
      applyPipeline tenv train_transform image rng₁ ≠
        applyPipeline tenv train_transform image rng₂) := by
  constructor
  · intro tenv image rng₁ rng₂
    rfl
  · refine ⟨⟨id, fun _ t => t, fun _ t => t, fun _ t => t, id, id⟩, [0],
      [[0], [0], [0], [0]], [[0], [0], [0], [1]], ?_⟩
    simp only [applyPipeline, train_transform, applyStep, AddGaussianNoise,
      List.foldl_cons, List.foldl_nil, List.headD, List.tail, List.zipWith, id]
    norm_num

/-! ## Helper lemmas on the multi-label `setup` loops -/

/-- A successful `multiStep` either skipped the file or appended one
aligned (path, label, gender) triple whose gender came from the profile's
split. -/
theorem multiStep_ok (env : Env) (profile fn : String) (label : Nat) (st st1 : DState)
    (h : multiStep env profile fn label st = .ok st1) :
    st1 = st ∨
    ∃ g, (∃ i gname r a, pySplitUnderscore profile = [i, gname, r, a] ∧
            getattrGenderLabels gname = some g) ∧
      st1 = ⟨st.image_paths ++ [pathJoin env.imgRoot profile fn],
             st.labels ++ [label], st.gender_labels ++ [g]⟩ := by
  simp only [multiStep] at h
  split at h
  · split at h
    · rename_i i gname r a heq
      split at h
      · rename_i g hg
        cases h
        exact Or.inr ⟨g, ⟨i, gname, r, a, heq, hg⟩, rfl⟩
      · cases h
    · cases h
  · cases h
    exact Or.inl rfl

/-- A failing `multiStep` raised ValueError or AttributeError, after
appending the offending file's path and label but no gender. -/
theorem multiStep_error (env : Env) (profile fn : String) (label : Nat) (st st1 : DState)
    (e : PyError) (h : multiStep env profile fn label st = .error (e, st1)) :
    (e = .valueError ∨ e = .attributeError) ∧
    st1 = ⟨st.image_paths ++ [pathJoin env.imgRoot profile fn],
           st.labels ++ [label], st.gender_labels⟩ := by
  simp only [multiStep] at h
  split at h
  · split at h
    · split at h
      · cases h
      · cases h
        exact ⟨Or.inr rfl, rfl⟩
    · cases h
      exact ⟨Or.inl rfl, rfl⟩
  · cases h

/-- A successful inner loop appends a list of aligned triples, each a
canonical file of the profile with its table label and the profile's
looked-up gender. -/
theorem multiFiles_ok_append (env : Env) (profile : String) :
    ∀ (l : List (String × Nat)) (st st' : DState),
      multiFiles env profile l st = .ok st' →
      ∃ tr : List (String × Nat × Nat),
        st'.image_paths = st.image_paths ++ tr.map (fun en => en.1) ∧
        st'.labels = st.labels ++ tr.map (fun en => en.2.1) ∧
        st'.gender_labels = st.gender_labels ++ tr.map (fun en => en.2.2) ∧
        ∀ en ∈ tr, ∃ fn, en.1 = pathJoin env.imgRoot profile fn ∧ (fn, en.2.1) ∈ l ∧
          ∃ i gname r a, pySplitUnderscore profile = [i, gname, r, a] ∧
            getattrGenderLabels gname = some en.2.2
  | [], st, st', h => by
    cases h
    exact ⟨[], by simp, by simp, by simp, by simp⟩
  | (fn, label) :: rest, st, st', h => by
    simp only [multiFiles] at h
    cases hstep : multiStep env profile fn label st with
    | error e =>
      rw [hstep] at h
      cases h
    | ok st1 =>
      rw [hstep] at h
      obtain ⟨tr, hp, hl, hg, hdesc⟩ := multiFiles_ok_append env profile rest st1 st' h
      rcases multiStep_ok env profile fn label st st1 hstep with rfl | ⟨g, hgen, rfl⟩
      · exact ⟨tr, hp, hl, hg, fun en hen => by
          obtain ⟨fn', h1, h2, h3⟩ := hdesc en hen
          exact ⟨fn', h1, List.mem_cons_of_mem _ h2, h3⟩⟩
      · refine ⟨(pathJoin env.imgRoot profile fn, label, g) :: tr, ?_, ?_, ?_, ?_⟩
        · simpa [List.append_assoc] using hp
        · simpa [List.append_assoc] using hl
        · simpa [List.append_assoc] using hg
        · intro en hen
          rcases List.mem_cons.1 hen with rfl | hen'
          · exact ⟨fn, rfl, List.mem_cons_self _ _, hgen⟩
          · obtain ⟨fn', h1, h2, h3⟩ := hdesc en hen'
            exact ⟨fn', h1, List.mem_cons_of_mem _ h2, h3⟩

/-- A failing inner loop raised ValueError or AttributeError and left the
path and label lists exactly one entry longer than the gender list,
relative to whatever it added symmetrically before the failure. -/
theorem multiFiles_error_lengths (env : Env) (profile : String) :
    ∀ (l : List (String × Nat)) (st st' : DState) (e : PyError),
      multiFiles env profile l st = .error (e, st') →
      (e = .valueError ∨ e = .attributeError) ∧
      ∃ k, st'.image_paths.length = st.image_paths.length + k + 1 ∧
        st'.labels.length = st.labels.length + k + 1 ∧
        st'.gender_labels.length = st.gender_labels.length + k
  | [], st, st', e, h => by cases h
  | (fn, label) :: rest, st, st', e, h => by
    simp only [multiFiles] at h
    cases hstep : multiStep env profile fn label st with
    | error ep =>
      rw [hstep] at h
      obtain ⟨ep1, ep2⟩ := ep
      cases h
      obtain ⟨he, hst⟩ := multiStep_error env profile fn label st st' e hstep
      subst hst
      exact ⟨he, 0, by simp, by simp, by simp⟩
    | ok st1 =>
      rw [hstep] at h
      obtain ⟨he, k, hp, hl, hg⟩ := multiFiles_error_lengths env profile rest st1 st' e h
      rcases multiStep_ok env profile fn label st st1 hstep with rfl | ⟨g, hgen, rfl⟩
      · exact ⟨he, k, hp, hl, hg⟩
      · refine ⟨he, k + 1, ?_, ?_, ?_⟩
        · simp only [hp]; simp; omega
        · simp only [hl]; simp; omega
        · simp only [hg]; simp; omega

/-- A successful profile scan appends aligned triples, each described by
some profile of the table. -/
theorem multiProfiles_ok_append (env : Env) :
    ∀ (ps : List String) (st st' : DState),
      multiProfiles env ps st = .ok st' →
      ∃ tr : List (String × Nat × Nat),
        st'.image_paths = st.image_paths ++ tr.map (fun en => en.1) ∧
        st'.labels = st.labels ++ tr.map (fun en => en.2.1) ∧
        st'.gender_labels = st.gender_labels ++ tr.map (fun en => en.2.2) ∧
        ∀ en ∈ tr, DescribesMulti env en.1 en.2.1 en.2.2
  | [], st, st', h => by
    cases h
    exact ⟨[], by simp, by simp, by simp, by simp⟩
  | p :: ps, st, st', h => by
    simp only [multiProfiles] at h
    cases hfiles : multiFiles env p fileNames st with
    | error e =>
      rw [hfiles] at h
      cases h
    | ok st1 =>
      rw [hfiles] at h
      obtain ⟨tr1, hp1, hl1, hg1, hd1⟩ := multiFiles_ok_append env p fileNames st st1 hfiles
      obtain ⟨tr2, hp2, hl2, hg2, hd2⟩ := multiProfiles_ok_append env ps st1 st' h
      refine ⟨tr1 ++ tr2, ?_, ?_, ?_, ?_⟩
      · simp [hp2, hp1, List.append_assoc]
      · simp [hl2, hl1, List.append_assoc]
      · simp [hg2, hg1, List.append_assoc]
      · intro en hen
        rcases List.mem_append.1 hen with h1 | h2
        · obtain ⟨fn, hfn, hmem, hsplit⟩ := hd1 en h1
          exact ⟨p, fn, hfn, hmem, hsplit⟩
        · exact hd2 en h2

/-- A failing profile scan raised ValueError or AttributeError and left
the three lists unbalanced by exactly one entry. -/
theorem multiProfiles_error_lengths (env : Env) :
    ∀ (ps : List String) (st st' : DState) (e : PyError),
      multiProfiles env ps st = .error (e, st') →
      (e = .valueError ∨ e = .attributeError) ∧
      ∃ k, st'.image_paths.length = st.image_paths.length + k + 1 ∧
        st'.labels.length = st.labels.length + k + 1 ∧
        st'.gender_labels.length = st.gender_labels.length + k
  | [], st, st', e, h => by cases h
  | p :: ps, st, st', e, h => by
    simp only [multiProfiles] at h
    cases hfiles : multiFiles env p fileNames st with
    | error ep =>
      rw [hfiles] at h
      obtain ⟨ep1, ep2⟩ := ep
      cases h
      exact multiFiles_error_lengths env p fileNames st st' e hfiles
    | ok st1 =>
      rw [hfiles] at h
      obtain ⟨he, k, hp, hl, hg⟩ := multiProfiles_error_lengths env ps st1 st' e h
      obtain ⟨tr, hp1, hl1, hg1, _⟩ := multiFiles_ok_append env p fileNames st st1 hfiles
      refine ⟨he, k + tr.length, ?_, ?_, ?_⟩
      · rw [hp, hp1]; simp; omega
      · rw [hl, hl1]; simp; omega
      · rw [hg, hg1]; simp; omega


/-! ## Helper lemmas on the base `setup` loops -/

/-- The base inner loop appends (path, label) pairs of canonical files of
the profile. -/
theorem baseFiles_append (env : Env) (profile : String) :
    ∀ (l : List (String × Nat)) (st : DState),
      ∃ tr : List (String × Nat),
        baseFiles env profile l st =
          ⟨st.image_paths ++ tr.map (fun en => en.1),
           st.labels ++ tr.map (fun en => en.2), st.gender_labels⟩ ∧
        ∀ en ∈ tr, ∃ fn, en.1 = pathJoin env.imgRoot profile fn ∧ (fn, en.2) ∈ l
  | [], st => ⟨[], by simp [baseFiles], by simp⟩
  | (fn, label) :: rest, st => by
    simp only [baseFiles, baseStep]
    by_cases hacc :
        (os_path_exists env (pathJoin env.imgRoot profile fn) &&
          is_image_file (pathJoin env.imgRoot profile fn)) = true
    · rw [if_pos hacc]
      obtain ⟨tr, heq, hdesc⟩ := baseFiles_append env profile rest
        ⟨st.image_paths ++ [pathJoin env.imgRoot profile fn],
         st.labels ++ [label], st.gender_labels⟩
      refine ⟨(pathJoin env.imgRoot profile fn, label) :: tr, ?_, ?_⟩
      · rw [heq]
        simp [List.append_assoc]
      · intro en hen
        rcases List.mem_cons.1 hen with rfl | hen'
        · exact ⟨fn, rfl, List.mem_cons_self _ _⟩
        · obtain ⟨fn', h1, h2⟩ := hdesc en hen'
          exact ⟨fn', h1, List.mem_cons_of_mem _ h2⟩
    · rw [if_neg hacc]
      obtain ⟨tr, heq, hdesc⟩ := baseFiles_append env profile rest st
      refine ⟨tr, heq, ?_⟩
      intro en hen
      obtain ⟨fn', h1, h2⟩ := hdesc en hen
      exact ⟨fn', h1, List.mem_cons_of_mem _ h2⟩

/-- The base profile scan appends (path, label) pairs, each a canonical
file of some profile. -/
theorem baseProfiles_append (env : Env) :
    ∀ (ps : List String) (st : DState),
      ∃ tr : List (String × Nat),
        baseProfiles env ps st =
          ⟨st.image_paths ++ tr.map (fun en => en.1),
           st.labels ++ tr.map (fun en => en.2), st.gender_labels⟩ ∧
        ∀ en ∈ tr, DescribesBase env en.1 en.2
  | [], st => ⟨[], by simp [baseProfiles], by simp⟩
  | p :: ps, st => by
    simp only [baseProfiles]
    obtain ⟨tr1, heq1, hd1⟩ := baseFiles_append env p fileNames st
    rw [heq1]
    obtain ⟨tr2, heq2, hd2⟩ := baseProfiles_append env ps
      ⟨st.image_paths ++ tr1.map (fun en => en.1),
       st.labels ++ tr1.map (fun en => en.2), st.gender_labels⟩
    refine ⟨tr1 ++ tr2, ?_, ?_⟩
    · rw [heq2]
      simp [List.append_assoc]
    · intro en hen
      rcases List.mem_append.1 hen with h1 | h2
      · obtain ⟨fn, hfn, hmem⟩ := hd1 en h1
        exact ⟨p, fn, hfn, hmem⟩
      · exact hd2 en h2

/-- `getD` of a mapped list below its length. -/
theorem getD_map_lt {α β : Type} (f : α → β) (l : List α) (i : Nat) (d : β)
    (h : i < l.length) : (l.map f).getD i d = f (l.get ⟨i, h⟩) := by
  simp [List.getD_eq_getElem?_getD, List.getElem?_map, List.getElem?_eq_getElem h]

/-! ## Claim C2 -/

/-- C2: after a successful `setup()` from a fresh process state,
`len(dataset) == len(image_paths) == len(labels)` (and
`== len(gender_labels)` for the multi-label variant), and the sequences
are index-aligned: `labels[i]` (and `gender_labels[i]`) describe
`image_paths[i]`. -/
theorem c2_parallel_alignment :
    (∀ env st, setupBase env DState.empty = .ok st →
      datasetLen st = st.image_paths.length ∧
      st.image_paths.length = st.labels.length ∧
      ∀ i, i < st.image_paths.length →
        DescribesBase env (st.image_paths.getD i "") (st.labels.getD i 0)) ∧
    (∀ env st, multiSetup env DState.empty = .ok st →
      datasetLen st = st.image_paths.length ∧
      st.image_paths.length = st.labels.length ∧
      st.labels.length = st.gender_labels.length ∧
      ∀ i, i < st.image_paths.length →
        DescribesMulti env (st.image_paths.getD i "") (st.labels.getD i 0)
          (st.gender_labels.getD i 0)) := by
  constructor
  · intro env st h
    rw [setupBase] at h
    cases hmeta : env.metaProfiles with
    | error u => rw [hmeta] at h; cases h
    | ok ps =>
      rw [hmeta] at h
      obtain ⟨tr, heq, hdesc⟩ := baseProfiles_append env ps DState.empty
      have hstval : Except.ok (baseProfiles env ps DState.empty) = Except.ok st := h
      rw [heq] at hstval
      have hst : st = ⟨DState.empty.image_paths ++ tr.map (fun en => en.1),
          DState.empty.labels ++ tr.map (fun en => en.2), DState.empty.gender_labels⟩ :=
        (Except.ok.inj hstval).symm
      subst hst
      simp only [DState.empty, List.nil_append, datasetLen]
      refine ⟨trivial, by simp, ?_⟩
      intro i hi
      simp only [List.length_map] at hi
      rw [getD_map_lt _ tr i _ hi, getD_map_lt _ tr i _ hi]
      obtain ⟨profile, fn, h1, h2⟩ := hdesc (tr.get ⟨i, hi⟩) (List.get_mem tr i hi)
      exact ⟨profile, fn, h1, h2⟩
  · intro env st h
    rw [multiSetup] at h
    cases hmeta : env.metaProfiles with
    | error u => rw [hmeta] at h; cases h
    | ok ps =>
      rw [hmeta] at h
      obtain ⟨tr, hp, hl, hg, hdesc⟩ := multiProfiles_ok_append env ps DState.empty st h
      simp only [DState.empty, List.nil_append] at hp hl hg
      simp only [datasetLen]
      rw [hp, hl, hg]
      refine ⟨trivial, by simp, by simp, ?_⟩
      intro i hi
      simp only [List.length_map] at hi
      rw [getD_map_lt _ tr i _ hi, getD_map_lt _ tr i _ hi, getD_map_lt _ tr i _ hi]
      exact hdesc (tr.get ⟨i, hi⟩) (List.get_mem tr i hi)

/-- Witness for C2 at a concrete world: one well-formed profile with two
canonical files on disk; both setups succeed and the conclusions hold of
the resulting states. -/
theorem c2_parallel_alignment_witness :
    (setupBase envC2 DState.empty = .ok stC2base ∧
      datasetLen stC2base = stC2base.image_paths.length ∧
      stC2base.image_paths.length = stC2base.labels.length ∧
      ∀ i, i < stC2base.image_paths.length →
        DescribesBase envC2 (stC2base.image_paths.getD i "") (stC2base.labels.getD i 0)) ∧
    (multiSetup envC2 DState.empty = .ok stC2multi ∧
      datasetLen stC2multi = stC2multi.image_paths.length ∧
      stC2multi.image_paths.length = stC2multi.labels.length ∧
      stC2multi.labels.length = stC2multi.gender_labels.length ∧
      ∀ i, i < stC2multi.image_paths.length →
        DescribesMulti envC2 (stC2multi.image_paths.getD i "")
          (stC2multi.labels.getD i 0) (stC2multi.gender_labels.getD i 0)) := by
  constructor
  · exact ⟨by decide, c2_parallel_alignment.1 envC2 stC2base (by decide)⟩
  · exact ⟨by decide, c2_parallel_alignment.2 envC2 stC2multi (by decide)⟩

/-! ## Claim C9 -/

/-- C9: when the multi-label `setup()` fails on a malformed profile name
(failing split) or a failed gender lookup, the offending file's path and
mask label were already appended while no gender entry was, so the failure
leaves `image_paths` and `labels` exactly one entry longer than
`gender_labels`: `setup()` is not atomic on error. -/
theorem c9_setup_not_atomic (env : Env) (e : PyError) (st' : DState)
    (h : multiSetup env DState.empty = .error (e, st'))
    (hne : e ≠ PyError.parseError) :
    (e = .valueError ∨ e = .attributeError) ∧
    st'.image_paths.length = st'.labels.length ∧
    st'.image_paths.length = st'.gender_labels.length + 1 := by
  rw [multiSetup] at h
  cases hmeta : env.metaProfiles with
  | error u =>
    rw [hmeta] at h
    cases h
    exact absurd rfl hne
  | ok ps =>
    rw [hmeta] at h
    obtain ⟨he, k, hp, hl, hg⟩ := multiProfiles_error_lengths env ps DState.empty st' e h
    simp only [DState.empty] at hp hl hg
    simp only [List.length_nil] at hp hl hg
    exact ⟨he, by omega, by omega⟩

/-- Witness for C9: the malformed profile `"bad"` with `mask1.jpg` on
disk makes `setup()` fail with ValueError, leaving one path and one label
but no gender entry. -/
theorem c9_setup_not_atomic_witness :
    multiSetup envC7w DState.empty =
      .error (.valueError, ⟨["r/bad/mask1.jpg"], [0], []⟩) ∧
    (PyError.valueError ≠ PyError.parseError) ∧
    ((PyError.valueError = .valueError ∨ PyError.valueError = .attributeError) ∧
      (DState.mk ["r/bad/mask1.jpg"] [0] []).image_paths.length =
        (DState.mk ["r/bad/mask1.jpg"] [0] []).labels.length ∧
      (DState.mk ["r/bad/mask1.jpg"] [0] []).image_paths.length =
        (DState.mk ["r/bad/mask1.jpg"] [0] []).gender_labels.length + 1) := by
  refine ⟨by decide, by decide, ?_⟩
  exact c9_setup_not_atomic envC7w .valueError ⟨["r/bad/mask1.jpg"], [0], []⟩
    (by decide) (by decide)


/-! ## Helper lemmas for the error-policy claims (C7, C10) -/

/-- A profile whose name fails the 4-field split makes the inner loop fail
with ValueError as soon as one of its files passes the filter. -/
theorem multiFiles_malformed_error (env : Env) (profile : String)
    (hm : splits4 profile = false) :
    ∀ (l : List (String × Nat)) (st : DState),
      l.any (fun pr => acceptsFile env profile pr.1) = true →
      ∃ st', multiFiles env profile l st = .error (.valueError, st')
  | [], st, h => by simp at h
  | (fn, label) :: rest, st, h => by
    simp only [List.any_cons, Bool.or_eq_true] at h
    simp only [multiFiles, multiStep]
    by_cases hacc :
        (os_path_exists env (pathJoin env.imgRoot profile fn) &&
          is_image_file (pathJoin env.imgRoot profile fn)) = true
    · rw [if_pos hacc]
      cases hsp : pySplitUnderscore profile with
      | nil => exact ⟨_, rfl⟩
      | cons a l0 =>
        cases l0 with
        | nil => exact ⟨_, rfl⟩
        | cons b l1 =>
          cases l1 with
          | nil => exact ⟨_, rfl⟩
          | cons c l2 =>
            cases l2 with
            | nil => exact ⟨_, rfl⟩
            | cons d l3 =>
              cases l3 with
              | nil =>
                rw [splits4, hsp] at hm
                simp at hm
              | cons e l4 => exact ⟨_, rfl⟩
    · rw [if_neg hacc]
      rcases h with h1 | h2
      · exact absurd (by simpa [acceptsFile] using h1) hacc
      · exact multiFiles_malformed_error env profile hm rest st h2

/-- A profile whose split succeeds with a recognized gender never makes
the inner loop fail. -/
theorem multiFiles_wellformed_ok (env : Env) (profile : String)
    (h4 : splits4 profile = true) (hw : wellGendered profile = true) :
    ∀ (l : List (String × Nat)) (st : DState),
      ∃ st', multiFiles env profile l st = .ok st'
  | [], st => ⟨st, rfl⟩
  | (fn, label) :: rest, st => by
    simp only [multiFiles, multiStep]
    by_cases hacc :
        (os_path_exists env (pathJoin env.imgRoot profile fn) &&
          is_image_file (pathJoin env.imgRoot profile fn)) = true
    · rw [if_pos hacc]
      cases hsp : pySplitUnderscore profile with
      | nil => rw [splits4, hsp] at h4; simp at h4
      | cons a l0 =>
        cases l0 with
        | nil => rw [splits4, hsp] at h4; simp at h4
        | cons b l1 =>
          cases l1 with
          | nil => rw [splits4, hsp] at h4; simp at h4
          | cons c l2 =>
            cases l2 with
            | nil => rw [splits4, hsp] at h4; simp at h4
            | cons d l3 =>
              cases l3 with
              | cons e l4 => rw [splits4, hsp] at h4; simp at h4
              | nil =>
                have hw2 := hw
                rw [wellGendered, hsp] at hw2
                cases hgen : getattrGenderLabels b with
                | none => simp [hgen] at hw2
                | some g =>
                  simp only [hgen]
                  exact multiFiles_wellformed_ok env profile h4 hw rest _
    · rw [if_neg hacc]
      exact multiFiles_wellformed_ok env profile h4 hw rest st

/-- A profile none of whose files passes the filter leaves the state
untouched and never fails. -/
theorem multiFiles_skip (env : Env) (profile : String) :
    ∀ (l : List (String × Nat)) (st : DState),
      l.any (fun pr => acceptsFile env profile pr.1) = false →
      multiFiles env profile l st = .ok st
  | [], st, h => rfl
  | (fn, label) :: rest, st, h => by
    simp only [List.any_cons, Bool.or_eq_false_iff] at h
    simp only [multiFiles, multiStep]
    rw [if_neg (by simpa [acceptsFile] using h.1)]
    exact multiFiles_skip env profile rest st (by simp [h.2])

/-- A 4-field profile with an unrecognized gender makes the inner loop
fail with AttributeError as soon as one of its files passes the filter. -/
theorem multiFiles_badgender_error (env : Env) (profile : String)
    (h4 : splits4 profile = true) (hw : wellGendered profile = false) :
    ∀ (l : List (String × Nat)) (st : DState),
      l.any (fun pr => acceptsFile env profile pr.1) = true →
      ∃ st', multiFiles env profile l st = .error (.attributeError, st')
  | [], st, h => by simp at h
  | (fn, label) :: rest, st, h => by
    simp only [List.any_cons, Bool.or_eq_true] at h
    simp only [multiFiles, multiStep]
    by_cases hacc :
        (os_path_exists env (pathJoin env.imgRoot profile fn) &&
          is_image_file (pathJoin env.imgRoot profile fn)) = true
    · rw [if_pos hacc]
      cases hsp : pySplitUnderscore profile with
      | nil => rw [splits4, hsp] at h4; simp at h4
      | cons a l0 =>
        cases l0 with
        | nil => rw [splits4, hsp] at h4; simp at h4
        | cons b l1 =>
          cases l1 with
          | nil => rw [splits4, hsp] at h4; simp at h4
          | cons c l2 =>
            cases l2 with
            | nil => rw [splits4, hsp] at h4; simp at h4
            | cons d l3 =>
              cases l3 with
              | cons e l4 => rw [splits4, hsp] at h4; simp at h4
              | nil =>
                have hw2 := hw
                rw [wellGendered, hsp] at hw2
                cases hgen : getattrGenderLabels b with
                | some g => simp [hgen] at hw2
                | none =>
                  simp only [hgen]
                  exact ⟨_, rfl⟩
    · rw [if_neg hacc]
      rcases h with h1 | h2
      · exact absurd (by simpa [acceptsFile] using h1) hacc
      · exact multiFiles_badgender_error env profile h4 hw rest st h2


/-- The profile scan fails with ValueError whenever some profile fails the
4-field split and has an accepted file, provided every 4-field profile has
a recognized gender. -/
theorem multiProfiles_malformed (env : Env) :
    ∀ (ps : List String) (st : DState),
      ps.any (fun p => !splits4 p && hasAcceptedFile env p) = true →
      ps.all wellGendered = true →
      ∃ st', multiProfiles env ps st = .error (.valueError, st')
  | [], st, hany, hall => by simp at hany
  | p :: ps, st, hany, hall => by
    simp only [List.all_cons, Bool.and_eq_true] at hall
    simp only [multiProfiles]
    by_cases hp : (!splits4 p && hasAcceptedFile env p) = true
    · simp only [Bool.and_eq_true, Bool.not_eq_true'] at hp
      obtain ⟨st', herr⟩ := multiFiles_malformed_error env p hp.1 fileNames st
        (by simpa [hasAcceptedFile] using hp.2)
      rw [herr]
      exact ⟨st', rfl⟩
    · have htail : ps.any (fun p => !splits4 p && hasAcceptedFile env p) = true := by
        simp only [List.any_cons, Bool.or_eq_true] at hany
        rcases hany with h1 | h2
        · exact absurd h1 hp
        · exact h2
      by_cases h4 : splits4 p = true
      · obtain ⟨st1, hok⟩ := multiFiles_wellformed_ok env p h4 hall.1 fileNames st
        rw [hok]
        exact multiProfiles_malformed env ps st1 htail hall.2
      · have h4f : splits4 p = false := by
          revert h4; cases splits4 p <;> simp
        have hnoacc : hasAcceptedFile env p = false := by
          cases hacc : hasAcceptedFile env p
          · rfl
          · exact absurd (by simp [h4f, hacc]) hp
        rw [multiFiles_skip env p fileNames st (by simpa [hasAcceptedFile] using hnoacc)]
        exact multiProfiles_malformed env ps st htail hall.2

/-- The profile scan fails with AttributeError whenever some profile has
an unrecognized gender and an accepted file, provided every profile
splits into 4 fields. -/
theorem multiProfiles_badgender (env : Env) :
    ∀ (ps : List String) (st : DState),
      ps.all splits4 = true →
      ps.any (fun p => !wellGendered p && hasAcceptedFile env p) = true →
      ∃ st', multiProfiles env ps st = .error (.attributeError, st')
  | [], st, hall, hany => by simp at hany
  | p :: ps, st, hall, hany => by
    simp only [List.all_cons, Bool.and_eq_true] at hall
    simp only [multiProfiles]
    by_cases hp : (!wellGendered p && hasAcceptedFile env p) = true
    · simp only [Bool.and_eq_true, Bool.not_eq_true'] at hp
      obtain ⟨st', herr⟩ := multiFiles_badgender_error env p hall.1 hp.1 fileNames st
        (by simpa [hasAcceptedFile] using hp.2)
      rw [herr]
      exact ⟨st', rfl⟩
    · have htail : ps.any (fun p => !wellGendered p && hasAcceptedFile env p) = true := by
        simp only [List.any_cons, Bool.or_eq_true] at hany
        rcases hany with h1 | h2
        · exact absurd h1 hp
        · exact h2
      by_cases hwg : wellGendered p = true
      · obtain ⟨st1, hok⟩ := multiFiles_wellformed_ok env p hall.1 hwg fileNames st
        rw [hok]
        exact multiProfiles_badgender env ps st1 hall.2 htail
      · have hwgf : wellGendered p = false := by
          revert hwg; cases wellGendered p <;> simp
        have hnoacc : hasAcceptedFile env p = false := by
          cases hacc : hasAcceptedFile env p
          · rfl
          · exact absurd (by simp [hwgf, hacc]) hp
        rw [multiFiles_skip env p fileNames st (by simpa [hasAcceptedFile] using hnoacc)]
        exact multiProfiles_badgender env ps st hall.2 htail


/-! ## Claim C7 -/

/-- C7 counterexample: the metadata table `["bad"]` contains a profile
name that does not split into 4 fields, yet (with none of its canonical
files on disk) the multi-label `setup()` completes without any error,
because the name is only parsed after a file of that profile passes the
existence filter. -/
theorem c7_counterexample :
    splits4 "bad" = false ∧ envC7.metaProfiles = .ok ["bad"] ∧
    multiSetup envC7 DState.empty = .ok DState.empty := by
  refine ⟨by decide, rfl, by decide⟩

/-- C7 amended: an unparsable metadata table fails `setup()` with a parse
error; and a parsable table containing a profile that fails the 4-field
split *and has at least one canonical file passing the existence filter*
fails with a value-format error, provided every 4-field profile has a
recognized gender (otherwise an earlier AttributeError can fire first). -/
theorem c7_amended_error_policy :
    (∀ env st, env.metaProfiles = (.error () : Except Unit (List String)) →
      multiSetup env st = .error (.parseError, st)) ∧
    (∀ env ps, env.metaProfiles = .ok ps →
      ps.any (fun p => !splits4 p && hasAcceptedFile env p) = true →
      ps.all wellGendered = true →
      ∃ st', multiSetup env DState.empty = .error (.valueError, st')) := by
  constructor
  · intro env st h
    rw [multiSetup, h]
  · intro env ps hmeta hany hall
    rw [multiSetup, hmeta]
    exact multiProfiles_malformed env ps DState.empty hany hall

/-- Witness for C7 amended: the profile `"bad"` with `mask1.jpg` on disk
makes `setup()` fail with ValueError. -/
theorem c7_amended_error_policy_witness :
    envC7w.metaProfiles = .ok ["bad"] ∧
    ((["bad"] : List String).any fun p => !splits4 p && hasAcceptedFile envC7w p) = true ∧
    ((["bad"] : List String).all wellGendered) = true ∧
    ∃ st', multiSetup envC7w DState.empty = .error (.valueError, st') := by
  refine ⟨rfl, by decide, by decide, ?_⟩
  exact c7_amended_error_policy.2 envC7w ["bad"] rfl (by decide) (by decide)

/-! ## Claim C10 -/

/-- C10 counterexample: the profile `"i_dog_x_1"` splits into 4 fields
with gender field `"dog"`, which is neither `male` nor `female`, yet with
none of its canonical files on disk the multi-label `setup()` completes
without any error. -/
theorem c10_counterexample :
    splits4 "i_dog_x_1" = true ∧ getattrGenderLabels "dog" = none ∧
    envC10.metaProfiles = .ok ["i_dog_x_1"] ∧
    multiSetup envC10 DState.empty = .ok DState.empty := by
  refine ⟨by decide, by decide, rfl, by decide⟩

/-- C10 amended: `male`/`female` map to 0/1; and a parsable table whose
profiles all split into 4 fields, one of which has an unrecognized gender
*and at least one canonical file passing the existence filter*, makes
`setup()` fail with an attribute-lookup error (not a value-format
error). -/
theorem c10_amended_gender_error :
    (getattrGenderLabels "male" = some 0 ∧ getattrGenderLabels "female" = some 1) ∧
    (∀ env ps, env.metaProfiles = .ok ps →
      ps.all splits4 = true →
      ps.any (fun p => !wellGendered p && hasAcceptedFile env p) = true →
      ∃ st', multiSetup env DState.empty = .error (.attributeError, st')) := by
  refine ⟨⟨rfl, rfl⟩, ?_⟩
  intro env ps hmeta hall hany
  rw [multiSetup, hmeta]
  exact multiProfiles_badgender env ps DState.empty hall hany

/-- Witness for C10 amended: the profile `"i_dog_x_1"` with `mask1.jpg`
on disk makes `setup()` fail with AttributeError. -/
theorem c10_amended_gender_error_witness :
    envC10w.metaProfiles = .ok ["i_dog_x_1"] ∧
    ((["i_dog_x_1"] : List String).all splits4) = true ∧
    ((["i_dog_x_1"] : List String).any fun p => !wellGendered p && hasAcceptedFile envC10w p) = true ∧
    ∃ st', multiSetup envC10w DState.empty = .error (.attributeError, st') := by
  refine ⟨rfl, by decide, by decide, ?_⟩
  exact c10_amended_gender_error.2 envC10w ["i_dog_x_1"] rfl (by decide) (by decide)


/-! ## Shift lemmas: a scan from any state appends what it would append
from the empty state (C4) -/

/-- `appendD` is associative. -/
theorem appendD_assoc (a b c : DState) :
    appendD (appendD a b) c = appendD a (appendD b c) := by
  simp [appendD, List.append_assoc]

/-- `appendD` with the empty state on the right. -/
theorem appendD_empty_right (a : DState) : appendD a DState.empty = a := by
  simp [appendD, DState.empty]

/-- One base step from `st` appends exactly what it appends from the
empty state. -/
theorem baseStep_shift (env : Env) (profile fn : String) (label : Nat) (st : DState) :
    baseStep env profile fn label st =
      appendD st (baseStep env profile fn label DState.empty) := by
  simp only [baseStep]
  by_cases hacc :
      (os_path_exists env (pathJoin env.imgRoot profile fn) &&
        is_image_file (pathJoin env.imgRoot profile fn)) = true
  · rw [if_pos hacc, if_pos hacc]
    simp [appendD, DState.empty]
  · rw [if_neg hacc, if_neg hacc]
    simp [appendD, DState.empty]

/-- The base inner loop from `st` appends exactly what it appends from
the empty state. -/
theorem baseFiles_shift (env : Env) (profile : String) :
    ∀ (l : List (String × Nat)) (st : DState),
      baseFiles env profile l st =
        appendD st (baseFiles env profile l DState.empty)
  | [], st => by simp [baseFiles, appendD_empty_right]
  | (fn, label) :: rest, st => by
    simp only [baseFiles]
    rw [baseFiles_shift env profile rest (baseStep env profile fn label st),
      baseFiles_shift env profile rest (baseStep env profile fn label DState.empty),
      baseStep_shift env profile fn label st, appendD_assoc]

/-- The base profile scan from `st` appends exactly what it appends from
the empty state. -/
theorem baseProfiles_shift (env : Env) :
    ∀ (ps : List String) (st : DState),
      baseProfiles env ps st = appendD st (baseProfiles env ps DState.empty)
  | [], st => by simp [baseProfiles, appendD_empty_right]
  | p :: ps, st => by
    simp only [baseProfiles]
    rw [baseProfiles_shift env ps (baseFiles env p fileNames st),
      baseProfiles_shift env ps (baseFiles env p fileNames DState.empty),
      baseFiles_shift env p fileNames st, appendD_assoc]

/-- One multi-label step from `st` behaves as from the empty state, with
`st` prepended to the resulting (ok or error) state. -/
theorem multiStep_shift (env : Env) (profile fn : String) (label : Nat) (st : DState) :
    multiStep env profile fn label st =
      match multiStep env profile fn label DState.empty with
      | .ok d => .ok (appendD st d)
      | .error (e, d) => .error (e, appendD st d) := by
  simp only [multiStep]
  by_cases hacc :
      (os_path_exists env (pathJoin env.imgRoot profile fn) &&
        is_image_file (pathJoin env.imgRoot profile fn)) = true
  · rw [if_pos hacc, if_pos hacc]
    cases hsp : pySplitUnderscore profile with
    | nil => simp [appendD, DState.empty]
    | cons a l0 =>
      cases l0 with
      | nil => simp [appendD, DState.empty]
      | cons b l1 =>
        cases l1 with
        | nil => simp [appendD, DState.empty]
        | cons c l2 =>
          cases l2 with
          | nil => simp [appendD, DState.empty]
          | cons d l3 =>
            cases l3 with
            | cons e l4 => simp [appendD, DState.empty]
            | nil =>
              cases hgen : getattrGenderLabels b with
              | some g => simp [hgen, appendD, DState.empty]
              | none => simp [hgen, appendD, DState.empty]
  · rw [if_neg hacc, if_neg hacc]
    simp [appendD_empty_right]

/-- The multi-label inner loop from `st` behaves as from the empty state,
with `st` prepended. -/
theorem multiFiles_shift (env : Env) (profile : String) :
    ∀ (l : List (String × Nat)) (st : DState),
      multiFiles env profile l st =
        match multiFiles env profile l DState.empty with
        | .ok d => .ok (appendD st d)
        | .error (e, d) => .error (e, appendD st d)
  | [], st => by simp [multiFiles, appendD_empty_right]
  | (fn, label) :: rest, st => by
    simp only [multiFiles]
    rw [multiStep_shift env profile fn label st]
    cases hstep : multiStep env profile fn label DState.empty with
    | error e =>
      obtain ⟨e1, d⟩ := e
      simp only []
    | ok d =>
      simp only []
      rw [multiFiles_shift env profile rest (appendD st d),
        multiFiles_shift env profile rest d]
      cases hrest : multiFiles env profile rest DState.empty with
      | ok d2 => simp [appendD_assoc]
      | error e2 =>
        obtain ⟨e2a, d2⟩ := e2
        simp [appendD_assoc]

/-- The multi-label profile scan from `st` behaves as from the empty
state, with `st` prepended. -/
theorem multiProfiles_shift (env : Env) :
    ∀ (ps : List String) (st : DState),
      multiProfiles env ps st =
        match multiProfiles env ps DState.empty with
        | .ok d => .ok (appendD st d)
        | .error (e, d) => .error (e, appendD st d)
  | [], st => by simp [multiProfiles, appendD_empty_right]
  | p :: ps, st => by
    simp only [multiProfiles]
    rw [multiFiles_shift env p fileNames st]
    cases hstep : multiFiles env p fileNames DState.empty with
    | error e =>
      obtain ⟨e1, d⟩ := e
      simp only []
    | ok d =>
      simp only []
      rw [multiProfiles_shift env ps (appendD st d),
        multiProfiles_shift env ps d]
      cases hrest : multiProfiles env ps DState.empty with
      | ok d2 => simp [appendD_assoc]
      | error e2 =>
        obtain ⟨e2a, d2⟩ := e2
        simp [appendD_assoc]


/-- A successful construction means `setup` succeeded with the same final
accumulator state. -/
theorem initBase_ok_setup (env : Env) (ph : String) (m s : Option V3)
    (st : DState) (inst2 : Instance) (st2 : DState)
    (h : initBase env ph m s st = .ok (inst2, st2)) :
    setupBase env st = .ok st2 := by
  rw [initBase] at h
  cases hs : setupBase env st with
  | error e => rw [hs] at h; cases h
  | ok stS => rw [hs] at h; cases h; rfl

/-- A successful multi-label construction means the overridden `setup`
succeeded with the same final accumulator state. -/
theorem initMulti_ok_setup (env : Env) (ph : String) (m s : Option V3)
    (st : DState) (inst2 : Instance) (st2 : DState)
    (h : initMulti env ph m s st = .ok (inst2, st2)) :
    multiSetup env st = .ok st2 := by
  rw [initMulti] at h
  cases hs : multiSetup env st with
  | error e => rw [hs] at h; cases h
  | ok stS => rw [hs] at h; cases h; rfl

/-! ## Claim C4 -/

/-- C4: the accumulators are class attributes, so constructing a second
dataset instance of the same class in the same process appends the second
instance's entries onto the sequences already populated by the first:
after the second construction the shared lists are the first instance's
lists followed by exactly what a fresh construction in an empty process
would have produced. -/
theorem c4_class_level_accumulation :
    (∀ (env1 env2 : Env) (ph1 ph2 : String) (m1 s1 m2 s2 : Option V3)
        (inst1 : Instance) (st1 : DState) (inst2 : Instance) (st2 : DState),
      initBase env1 ph1 m1 s1 DState.empty = .ok (inst1, st1) →
      initBase env2 ph2 m2 s2 st1 = .ok (inst2, st2) →
      ∃ fresh2, setupBase env2 DState.empty = .ok fresh2 ∧
        st2.image_paths = st1.image_paths ++ fresh2.image_paths ∧
        st2.labels = st1.labels ++ fresh2.labels) ∧
    (∀ (env1 env2 : Env) (ph1 ph2 : String) (m1 s1 m2 s2 : Option V3)
        (inst1 : Instance) (st1 : DState) (inst2 : Instance) (st2 : DState),
      initMulti env1 ph1 m1 s1 DState.empty = .ok (inst1, st1) →
      initMulti env2 ph2 m2 s2 st1 = .ok (inst2, st2) →
      ∃ fresh2, multiSetup env2 DState.empty = .ok fresh2 ∧
        st2.image_paths = st1.image_paths ++ fresh2.image_paths ∧
        st2.labels = st1.labels ++ fresh2.labels ∧
        st2.gender_labels = st1.gender_labels ++ fresh2.gender_labels) := by
  constructor
  · intro env1 env2 ph1 ph2 m1 s1 m2 s2 inst1 st1 inst2 st2 h1 h2
    have hsetup2 := initBase_ok_setup env2 ph2 m2 s2 st1 inst2 st2 h2
    rw [setupBase] at hsetup2
    cases hmeta : env2.metaProfiles with
    | error u => rw [hmeta] at hsetup2; cases hsetup2
    | ok ps =>
      rw [hmeta] at hsetup2
      have h3 : Except.ok (ε := PyError) (baseProfiles env2 ps st1) = Except.ok st2 := hsetup2
      have hst2 : st2 = baseProfiles env2 ps st1 := (Except.ok.inj h3).symm
      subst hst2
      refine ⟨baseProfiles env2 ps DState.empty, ?_, ?_, ?_⟩
      · rw [setupBase, hmeta]
      · rw [baseProfiles_shift env2 ps st1]
        simp [appendD]
      · rw [baseProfiles_shift env2 ps st1]
        simp [appendD]
  · intro env1 env2 ph1 ph2 m1 s1 m2 s2 inst1 st1 inst2 st2 h1 h2
    have hsetup2 := initMulti_ok_setup env2 ph2 m2 s2 st1 inst2 st2 h2
    rw [multiSetup] at hsetup2
    cases hmeta : env2.metaProfiles with
    | error u => rw [hmeta] at hsetup2; cases hsetup2
    | ok ps =>
      rw [hmeta] at hsetup2
      have h3 : multiProfiles env2 ps st1 = Except.ok st2 := hsetup2
      rw [multiProfiles_shift env2 ps st1] at h3
      cases hrun : multiProfiles env2 ps DState.empty with
      | error e =>
        rw [hrun] at h3
        obtain ⟨e1, d⟩ := e
        cases h3
      | ok d =>
        rw [hrun] at h3
        have hst2 : st2 = appendD st1 d := (Except.ok.inj h3).symm
        subst hst2
        refine ⟨d, ?_, ?_, ?_, ?_⟩
        · rw [multiSetup, hmeta]
          exact hrun
        · simp [appendD]
        · simp [appendD]
        · simp [appendD]

/-- Witness for C4: two constructions of each class in the same process;
the second's entries land after the first's in the shared lists. -/
theorem c4_class_level_accumulation_witness :
    (initBase envC4a "train" none none DState.empty = .ok (instHard "train", stC4a) ∧
      initBase envC4b "train" none none stC4a = .ok (instHard "train", stC4b) ∧
      ∃ fresh2, setupBase envC4b DState.empty = .ok fresh2 ∧
        stC4b.image_paths = stC4a.image_paths ++ fresh2.image_paths ∧
        stC4b.labels = stC4a.labels ++ fresh2.labels) ∧
    (initMulti envC4a "train" none none DState.empty = .ok (instHard "train", stC4am) ∧
      initMulti envC4b "train" none none stC4am = .ok (instHard "train", stC4bm) ∧
      ∃ fresh2, multiSetup envC4b DState.empty = .ok fresh2 ∧
        stC4bm.image_paths = stC4am.image_paths ++ fresh2.image_paths ∧
        stC4bm.labels = stC4am.labels ++ fresh2.labels ∧
        stC4bm.gender_labels = stC4am.gender_labels ++ fresh2.gender_labels) := by
  constructor
  · refine ⟨rfl, rfl, ?_⟩
    exact c4_class_level_accumulation.1 envC4a envC4b "train" "train" none none none none
      (instHard "train") stC4a (instHard "train") stC4b rfl rfl
  · refine ⟨rfl, rfl, ?_⟩
    exact c4_class_level_accumulation.2 envC4a envC4b "train" "train" none none none none
      (instHard "train") stC4am (instHard "train") stC4bm rfl rfl

end MaskRepo
